import Mathlib

/-!
Verification of the CoreML export script `models/coreml_export.py`.

The script wraps a detector network (`ExportModel.forward`), converts the
traced network to a CoreML spec, renames and retypes its two outputs,
builds a non-maximum-suppression (NMS) stage, and assembles both into a
pipeline that is saved next to the weights file.  The development below is
a shallow embedding of that script: protobuf messages become Lean
structures, protobuf field mutation becomes functional update, tensor
arithmetic is carried out over `ℚ`, and Python exceptions become `Except`.
-/

namespace CoremlExport

/-- Element types of a multi-array feature, as in CoreML FeatureTypes
(`ArrayFeatureType.ArrayDataType`); `invalid` is the protobuf default 0. -/
inductive ArrayDataType where
  | invalid
  | float32
  | double
  | int32
deriving DecidableEq, Repr

/-- One entry of `shapeRange.sizeRanges`: a dimension whose size may vary
between `lowerBound` and `upperBound`; `upperBound = -1` encodes an
unbounded dimension, as in the CoreML protobuf convention. -/
structure SizeRange where
  lowerBound : Int
  upperBound : Int
deriving DecidableEq, Repr

/-- A multi-array feature type: the fixed `shape` list, the element
`dataType`, and the flexible `shapeRange.sizeRanges` list. -/
structure MultiArrayType where
  shape : List Nat
  dataType : ArrayDataType
  sizeRanges : List SizeRange
deriving DecidableEq, Repr

/-- The `type` oneof of a CoreML feature: unset (protobuf default), a
multi-array, an image, a scalar double, or a string. -/
inductive FeatureType where
  | unspecified
  | multiArray (ma : MultiArrayType)
  | imageType (width : Nat) (height : Nat)
  | doubleType
  | stringType
deriving DecidableEq, Repr

/-- A feature description: `name`, human-readable `shortDescription`, and
the feature type (the protobuf field `type`, renamed `ftype` because
`type` is reserved in Lean). -/
structure FeatureDescription where
  name : String
  shortDescription : String
  ftype : FeatureType
deriving DecidableEq, Repr

/-- Placeholder feature description (protobuf defaults). -/
def fdDefault : FeatureDescription :=
  { name := "", shortDescription := "", ftype := .unspecified }

/-- Element `i` of a repeated feature field (the Python `output[i]`
access, after the existence guard). -/
def fdAt (l : List FeatureDescription) (i : Nat) : FeatureDescription :=
  l.getD i fdDefault

/-- The `description` part of a CoreML model spec: its declared input and
output features. -/
structure ModelDescription where
  input : List FeatureDescription
  output : List FeatureDescription
deriving DecidableEq, Repr

/-- Failure modes of the export steps.  `missingOutput` models the Python
IndexError raised when `spec.description.output[i]` does not exist
(called MissingOutput in the design document), `missingInput` the same
for inputs, `labelCountMismatch` the assertion on the label count,
`serializationFailure` a failed ParseFromString, `nameError` the Python
NameError raised when the CoreML block reads the unbound variable `ts`
after a failed trace, and `convertFailure` / `saveFailure` failures of
the external converter and of the final save. -/
inductive ExportError where
  | missingOutput
  | missingInput
  | labelCountMismatch
  | serializationFailure
  | nameError
  | convertFailure
  | saveFailure
deriving DecidableEq, Repr

/-- Reading `feature.type.multiArrayType` in protobuf: yields the stored
multi-array when the oneof holds one, and a default message otherwise. -/
def getMultiArray : FeatureType → MultiArrayType
  | .multiArray ma => ma
  | _ => { shape := [], dataType := .invalid, sizeRanges := [] }

/-- Mutating through `feature.type.multiArrayType` in protobuf: applies
`f` to the stored multi-array (a default one if the oneof held something
else) and makes the result the feature's type. -/
def mapMA (f : MultiArrayType → MultiArrayType) (fd : FeatureDescription) :
    FeatureDescription :=
  { fd with ftype := .multiArray (f (getMultiArray fd.ftype)) }

/-- In-place update of the element at index `i` of a list, as protobuf
repeated-field element assignment does. -/
def modifyIdx : List α → Nat → (α → α) → List α
  | [], _, _ => []
  | a :: as, 0, f => f a :: as
  | a :: as, n + 1, f => a :: modifyIdx as n f

/-! ### Python `str.replace`

Line 107 and line 226 of the source derive both artifact filenames with
`opt.weights.replace('.pt', ...)`.  Python's `str.replace` substitutes
every non-overlapping occurrence of the pattern, scanning left to right.
The recursion is implemented with a character-count fuel so that it is
structural; `s.length` characters of fuel always suffice because every
step consumes at least one character of the remaining string. -/

/-- Fuel-indexed worker for `replaceAll`; one unit of fuel per consumed
character prefix. -/
def replaceAllAux (pat rep : List Char) : Nat → List Char → List Char
  | _, [] => []
  | 0, s => s
  | fuel + 1, c :: rest =>
    if pat.isPrefixOf (c :: rest) ∧ pat ≠ [] then
      rep ++ replaceAllAux pat rep fuel ((c :: rest).drop pat.length)
    else
      c :: replaceAllAux pat rep fuel rest

/-- Replace every non-overlapping occurrence of `pat` in `s` by `rep`,
scanning left to right (Python `str.replace` for a nonempty pattern). -/
def replaceAll (pat rep s : List Char) : List Char :=
  replaceAllAux pat rep s.length s

/-- Python `weights.replace(old, new)` on strings. -/
def pyReplace (s old new : String) : String :=
  String.mk (replaceAll old.data new.data s.data)

/-! ### Protobuf serialization round trip

Lines 142-148 and 195-200 of the source copy feature descriptions with
`SerializeToString` followed by `ParseFromString`.  We model the byte
string as a token list, with an executable encoder and decoder, and prove
that decoding an encoding returns the original message. -/

/-- A token of the serialized form of a feature description. -/
inductive Tok where
  | tnat (n : Nat)
  | tint (i : Int)
  | tstr (s : String)
deriving DecidableEq, Repr

/-- Wire code of an element type. -/
def dtCode : ArrayDataType → Nat
  | .invalid => 0
  | .float32 => 1
  | .double => 2
  | .int32 => 3

/-- Element type decoded from its wire code. -/
def dtOfCode : Nat → Option ArrayDataType
  | 0 => some .invalid
  | 1 => some .float32
  | 2 => some .double
  | 3 => some .int32
  | _ => none

/-- Serialize a list of naturals. -/
def encodeNats : List Nat → List Tok
  | [] => []
  | n :: ns => Tok.tnat n :: encodeNats ns

/-- Read back `count` naturals, returning them and the remaining tokens. -/
def decodeNats : Nat → List Tok → Option (List Nat × List Tok)
  | 0, ts => some ([], ts)
  | n + 1, Tok.tnat k :: ts =>
    match decodeNats n ts with
    | some (ks, rest) => some (k :: ks, rest)
    | none => none
  | _ + 1, _ => none

/-- Serialize a list of size ranges. -/
def encodeSRs : List SizeRange → List Tok
  | [] => []
  | r :: rs => Tok.tint r.lowerBound :: Tok.tint r.upperBound :: encodeSRs rs

/-- Read back `count` size ranges, returning them and the remaining
tokens. -/
def decodeSRs : Nat → List Tok → Option (List SizeRange × List Tok)
  | 0, ts => some ([], ts)
  | n + 1, Tok.tint lo :: Tok.tint hi :: ts =>
    match decodeSRs n ts with
    | some (rs, rest) => some (⟨lo, hi⟩ :: rs, rest)
    | none => none
  | _ + 1, _ => none

/-- Serialize a multi-array type. -/
def encodeMA (ma : MultiArrayType) : List Tok :=
  Tok.tnat ma.shape.length :: (encodeNats ma.shape ++
    (Tok.tnat (dtCode ma.dataType) :: Tok.tnat ma.sizeRanges.length ::
      encodeSRs ma.sizeRanges))

/-- Decode a multi-array type, returning the remaining tokens. -/
def decodeMA : List Tok → Option (MultiArrayType × List Tok)
  | Tok.tnat slen :: rest =>
    match decodeNats slen rest with
    | some (shape, Tok.tnat dc :: Tok.tnat rlen :: rest2) =>
      match dtOfCode dc, decodeSRs rlen rest2 with
      | some dt, some (rs, rest3) => some (⟨shape, dt, rs⟩, rest3)
      | _, _ => none
    | _ => none
  | _ => none

/-- Serialize a feature type. -/
def encodeFT : FeatureType → List Tok
  | .unspecified => [Tok.tnat 0]
  | .multiArray ma => Tok.tnat 1 :: encodeMA ma
  | .imageType w h => [Tok.tnat 2, Tok.tnat w, Tok.tnat h]
  | .doubleType => [Tok.tnat 3]
  | .stringType => [Tok.tnat 4]

/-- Decode a feature type, returning the remaining tokens. -/
def decodeFT : List Tok → Option (FeatureType × List Tok)
  | Tok.tnat 0 :: rest => some (.unspecified, rest)
  | Tok.tnat 1 :: rest =>
    match decodeMA rest with
    | some (ma, rest2) => some (.multiArray ma, rest2)
    | none => none
  | Tok.tnat 2 :: Tok.tnat w :: Tok.tnat h :: rest =>
    some (.imageType w h, rest)
  | Tok.tnat 3 :: rest => some (.doubleType, rest)
  | Tok.tnat 4 :: rest => some (.stringType, rest)
  | _ => none

/-- SerializeToString for a feature description. -/
def encodeFD (fd : FeatureDescription) : List Tok :=
  Tok.tstr fd.name :: Tok.tstr fd.shortDescription :: encodeFT fd.ftype

/-- ParseFromString for a feature description: succeeds only on an exact
encoding with no trailing tokens. -/
def decodeFD : List Tok → Option FeatureDescription
  | Tok.tstr n :: Tok.tstr d :: rest =>
    match decodeFT rest with
    | some (t, []) => some { name := n, shortDescription := d, ftype := t }
    | _ => none
  | _ => none

/-- Copying a feature description by SerializeToString followed by
ParseFromString, as the source does at lines 142-148 and 195-200. -/
def parseCopy (fd : FeatureDescription) : Except ExportError FeatureDescription :=
  match decodeFD (encodeFD fd) with
  | some fd2 => .ok fd2
  | none => .error .serializationFailure

/-! ### Interface renamer (source lines 125-133)

The block reads the two output names (an IndexError — MissingOutput — if
there are fewer than two outputs), renames them to `raw_confidence` and
`raw_coordinates` with `ct.utils.rename_feature`, extends the declared
shapes with `[num_boxes, num_classes]` and `[num_boxes, 4]`, and sets
both element types to DOUBLE. -/

/-- Model of `ct.utils.rename_feature spec old new`: every input or
output feature named `old` is renamed to `new`. -/
def renameFeature (spec : ModelDescription) (old new : String) :
    ModelDescription :=
  { input := spec.input.map fun fd =>
      if fd.name = old then { fd with name := new } else fd,
    output := spec.output.map fun fd =>
      if fd.name = old then { fd with name := new } else fd }

/-- The interface-rename block, lines 125-133 of the source.  The two
shape writes use protobuf `shape.extend`, which appends to the declared
shape list; the two `dataType` writes force DOUBLE. -/
def interfaceRename (numBoxes numClasses : Nat) (spec : ModelDescription) :
    Except ExportError ModelDescription :=
  if 2 ≤ spec.output.length then
    let old_box_output_name := (fdAt spec.output 1).name
    let old_scores_output_name := (fdAt spec.output 0).name
    let s1 := renameFeature spec old_scores_output_name "raw_confidence"
    let s2 := renameFeature s1 old_box_output_name "raw_coordinates"
    let extendShape0 := mapMA fun ma =>
      { ma with shape := ma.shape ++ [numBoxes, numClasses] }
    let extendShape1 := mapMA fun ma =>
      { ma with shape := ma.shape ++ [numBoxes, 4] }
    let forceDouble := mapMA fun ma => { ma with dataType := .double }
    let s3 := { s2 with output := modifyIdx s2.output 0 extendShape0 }
    let s4 := { s3 with output := modifyIdx s3.output 1 extendShape1 }
    let s5 := { s4 with output := modifyIdx s4.output 0 forceDouble }
    let s6 := { s5 with output := modifyIdx s5.output 1 forceDouble }
    .ok s6
  else .error .missingOutput

/-! ### Label resolution (source lines 95-99)

An empty label list means the caller supplied none (argparse cannot
produce an empty `--labels`, and the Python code tests truthiness).  A
nonempty list must match the class count, enforced by the assertion at
line 96; otherwise generic labels `Class 1` .. `Class N` are generated. -/

/-- Label-list validation and generation, lines 95-99 of the source. -/
def resolveLabels (labels : List String) (numClasses : Nat) :
    Except ExportError (List String) :=
  if labels ≠ [] then
    if labels.length = numClasses then .ok labels
    else .error .labelCountMismatch
  else
    .ok ((List.range numClasses).map fun n => "Class " ++ toString (n + 1))

/-! ### Suppression stage builder (source lines 138-179) -/

/-- The `pickTop` message of the NMS parameters. -/
structure PickTop where
  perClass : Bool
deriving DecidableEq, Repr

/-- The NMS model spec assembled at lines 138-179: a description with the
copied inputs and outputs, the six feature-name bindings, the default
thresholds, the pick-top policy, and the class-label vector. -/
structure NMSModel where
  description : ModelDescription
  confidenceInputFeatureName : String
  coordinatesInputFeatureName : String
  confidenceOutputFeatureName : String
  coordinatesOutputFeatureName : String
  iouThresholdInputFeatureName : String
  confidenceThresholdInputFeatureName : String
  iouThreshold : ℚ
  confidenceThreshold : ℚ
  pickTop : PickTop
  stringClassLabels : List String
  specificationVersion : Nat
deriving DecidableEq, Repr

/-- The shape-range loop body at lines 154-162, for one output with
second-dimension size `size`: append a range set to `[0, -1]` (lower
bound 0, unbounded upper bound), append a range set to `[size, size]`,
and delete the fixed shape. -/
def addSizeRanges (size : Nat) (fd : FeatureDescription) : FeatureDescription :=
  mapMA (fun ma =>
    let sr1 := ma.sizeRanges ++ [⟨0, 0⟩]
    let sr2 := modifyIdx sr1 0 fun r => { r with lowerBound := 0 }
    let sr3 := modifyIdx sr2 0 fun r => { r with upperBound := -1 }
    let sr4 := sr3 ++ [⟨0, 0⟩]
    let sr5 := modifyIdx sr4 1 fun r => { r with lowerBound := (size : Int) }
    let sr6 := modifyIdx sr5 1 fun r => { r with upperBound := (size : Int) }
    { ma with sizeRanges := sr6, shape := [] }) fd

/-- The suppression-stage build, lines 138-179 of the source: inputs and
outputs are serialize/parse copies of the renamed spec's two outputs, the
outputs are renamed to `confidence` and `coordinates` and given range
shapes `[0..unbounded] × numClasses` and `[0..unbounded] × 4`, and the
NMS parameters are filled in with the literal defaults. -/
def buildNMS (spec : ModelDescription) (numClasses : Nat)
    (labels : List String) : Except ExportError NMSModel :=
  if 2 ≤ spec.output.length then do
    let in0 ← parseCopy (fdAt spec.output 0)
    let in1 ← parseCopy (fdAt spec.output 1)
    let o0 ← parseCopy (fdAt spec.output 0)
    let o1 ← parseCopy (fdAt spec.output 1)
    let out0 := addSizeRanges numClasses { o0 with name := "confidence" }
    let out1 := addSizeRanges 4 { o1 with name := "coordinates" }
    return {
      description := { input := [in0, in1], output := [out0, out1] },
      confidenceInputFeatureName := "raw_confidence",
      coordinatesInputFeatureName := "raw_coordinates",
      confidenceOutputFeatureName := "confidence",
      coordinatesOutputFeatureName := "coordinates",
      iouThresholdInputFeatureName := "iouThreshold",
      confidenceThresholdInputFeatureName := "confidenceThreshold",
      iouThreshold := 0.45,
      confidenceThreshold := 0.6,
      pickTop := { perClass := true },
      stringClassLabels := labels,
      specificationVersion := 3 }
  else .error .missingOutput

/-! ### Pipeline composer (source lines 183-224) -/

/-- A stage added to the pipeline with `add_model`. -/
inductive Stage where
  | neuralNetwork (spec : ModelDescription)
  | suppression (nms : NMSModel)
deriving DecidableEq, Repr

/-- The pipeline spec: declared interface, ordered stage list, metadata,
and the specification version. -/
structure PipelineModel where
  input : List FeatureDescription
  output : List FeatureDescription
  stages : List Stage
  metadataShortDescription : String
  metadataAuthor : String
  userDefined : List (String × String)
  specificationVersion : Nat
deriving DecidableEq, Repr

/-- The coremltools `Pipeline(input_features, output_features)`
constructor: inputs from the `(name, datatype)` pairs, and one
auto-generated output per requested name, typed as a string by default
(the source comment at line 198 notes this default). -/
def pipelineInit (input_features : List (String × FeatureType))
    (output_features : List String) : PipelineModel :=
  { input := input_features.map fun p =>
      { name := p.1, shortDescription := "", ftype := p.2 },
    output := output_features.map fun n =>
      { name := n, shortDescription := "", ftype := .stringType },
    stages := [],
    metadataShortDescription := "",
    metadataAuthor := "",
    userDefined := [],
    specificationVersion := 1 }

/-- The pipeline assembly, lines 183-224 of the source: build the
skeleton pipeline, append the two stages, overwrite input 0 with a
serialize/parse copy of the renamed spec's image input, overwrite the two
outputs with serialize/parse copies of the suppression stage's outputs,
then attach descriptions and metadata and set the spec version to 3. -/
def composePipeline (spec : ModelDescription) (nms : NMSModel)
    (labels : List String) : Except ExportError PipelineModel :=
  if 1 ≤ spec.input.length then
    if 2 ≤ nms.description.output.length then do
      let p0 := pipelineInit
        [("image", .multiArray { shape := [3, 300, 300], dataType := .double,
                                 sizeRanges := [] }),
         ("iouThreshold", .doubleType),
         ("confidenceThreshold", .doubleType)]
        ["confidence", "coordinates"]
      let p1 := { p0 with stages := [.neuralNetwork spec, .suppression nms] }
      let imgIn ← parseCopy (fdAt spec.input 0)
      let p2 := { p1 with input := modifyIdx p1.input 0 fun _ => imgIn }
      let o0 ← parseCopy (fdAt nms.description.output 0)
      let o1 ← parseCopy (fdAt nms.description.output 1)
      let newOutputs := modifyIdx (modifyIdx p2.output 0 fun _ => o0) 1 fun _ => o1
      let p3 := { p2 with output := newOutputs }
      let setDescIou := fun (fd : FeatureDescription) =>
        { fd with shortDescription := "(optional) IOU Threshold override" }
      let setDescConf := fun (fd : FeatureDescription) =>
        { fd with shortDescription := "(optional) Confidence Threshold override" }
      let setDescOut0 := fun (fd : FeatureDescription) =>
        { fd with shortDescription := "Boxes Class confidence" }
      let setDescOut1 := fun (fd : FeatureDescription) =>
        { fd with shortDescription := "Boxes [x, y, width, height] (relative to image size)" }
      let descInputs := modifyIdx (modifyIdx p3.input 1 setDescIou) 2 setDescConf
      let descOutputs := modifyIdx (modifyIdx p3.output 0 setDescOut0) 1 setDescOut1
      let p4 := { p3 with input := descInputs, output := descOutputs }
      let meta := [("iou_threshold", "0.45"),
                   ("confidence_threshold", "0.6"),
                   ("classes", String.intercalate ", " labels)]
      let p5 := { p4 with
                  metadataShortDescription := "YOLO v5 card detector",
                  metadataAuthor := "Pocket Pixels Inc.",
                  userDefined := meta,
                  specificationVersion := 3 }
      return p5
    else .error .missingOutput
  else .error .missingInput

/-! ### Coordinate normalizer (`ExportModel.forward`, source lines 32-42)

The arithmetic applied after the base model call, over `ℚ` in place of
the float tensor: the batch dimension is already squeezed away, so `x`
is the list of per-box rows, each laid out `[x, y, w, h, objectness,
class0, ..]`.  `class_probs` multiplies the class columns by the
objectness column, and `boxes` multiplies the four coordinate columns by
`[1/w, 1/h, 1/w, 1/h]`. -/

/-- Arithmetic of `ExportModel.forward` on a `[numBoxes, 5+numClasses]`
row list. -/
def exportForward (w h : ℚ) (x : List (List ℚ)) :
    List (List ℚ) × List (List ℚ) :=
  (x.map fun row => (row.drop 5).map fun v => v * row.getD 4 0,
   x.map fun row =>
     List.zipWith (fun v s => v * s) (row.take 4) [1 / w, 1 / h, 1 / w, 1 / h])

/-! ### Export driver (source lines 103-230)

The two export attempts are modeled over an environment recording which
external operations succeed.  The TorchScript block (lines 103-111)
derives a filename and traces the model, but contains no save call, so
it writes no file.  The CoreML block (lines 113-230) reads the traced
module `ts` (a NameError if the trace failed), converts it, runs the
rename / NMS / pipeline steps, and saves the final model.  Each block is
wrapped in `try/except Exception`, so every failure is caught and the
run always reaches the final print. -/

/-- Which of the external operations of a run succeed, and the model
description produced by `ct.convert`. -/
structure Env where
  traceOk : Bool
  convertOk : Bool
  tracedSpec : ModelDescription
  saveOk : Bool
deriving DecidableEq, Repr

/-- Observable outcome of a run: whether each block printed its failure
message, the files written, and whether the final print was reached. -/
structure RunResult where
  torchscriptError : Bool
  coremlError : Bool
  filesWritten : List String
  completed : Bool
deriving DecidableEq, Repr

/-- Filename derived at line 107: `opt.weights.replace('.pt', '.torchscript.pt')`. -/
def torchscriptFilename (weights : String) : String :=
  pyReplace weights ".pt" ".torchscript.pt"

/-- Filename derived at line 226: `opt.weights.replace('.pt', '.mlmodel')`. -/
def mlmodelFilename (weights : String) : String :=
  pyReplace weights ".pt" ".mlmodel"

/-- Body of the CoreML `try` block, lines 115-228: returns the files it
wrote, or the first error raised inside the block. -/
def coremlAttempt (weights : String) (env : Env) (numBoxes numClasses : Nat)
    (labels : List String) : Except ExportError (List String) :=
  if env.traceOk then
    if env.convertOk then do
      let renamed ← interfaceRename numBoxes numClasses env.tracedSpec
      let nms ← buildNMS renamed numClasses labels
      let _pipeline ← composePipeline renamed nms labels
      if env.saveOk then
        return [mlmodelFilename weights]
      else
        .error .saveFailure
    else .error .convertFailure
  else .error .nameError

/-- The whole driver after label resolution: the TorchScript attempt
(which fails exactly when tracing fails, and never writes a file), then
the CoreML attempt; both catch their own exceptions, so the final print
is always reached. -/
def runExport (weights : String) (env : Env) (numBoxes numClasses : Nat)
    (labels : List String) : RunResult :=
  let torchscriptError := !env.traceOk
  match coremlAttempt weights env numBoxes numClasses labels with
  | .ok files =>
    { torchscriptError := torchscriptError, coremlError := false,
      filesWritten := files, completed := true }
  | .error _ =>
    { torchscriptError := torchscriptError, coremlError := true,
      filesWritten := [], completed := true }

/-! ### Comparison definition and concrete exemplars -/

/-- Modelled on the specification's words, for comparison with the code's
filename derivation: the weights path with its trailing extension (the
final dot and what follows it) replaced by `newExt`; a path with no dot
is left unchanged. -/
def extensionReplace (w newExt : String) : String :=
  if w.data.contains '.' then
    String.mk (((w.data.reverse.dropWhile fun c => c ≠ '.').drop 1).reverse)
      ++ newExt
  else w

/-- Boolean success test for an `Except` result. -/
def isOkB (e : Except ExportError ModelDescription) : Bool :=
  match e with
  | .ok _ => true
  | .error _ => false

/-- Declared shape of output `i` of a rename result (empty on error). -/
def renamedShape (r : Except ExportError ModelDescription) (i : Nat) :
    List Nat :=
  match r with
  | .ok s => (getMultiArray (fdAt s.output i).ftype).shape
  | .error _ => []

/-- Output names of a rename result (empty on error). -/
def renamedNames (r : Except ExportError ModelDescription) : List String :=
  match r with
  | .ok s => s.output.map FeatureDescription.name
  | .error _ => []

/-- Declared element type of output `i` of a rename result (`invalid` on
error). -/
def renamedDataType (r : Except ExportError ModelDescription) (i : Nat) :
    ArrayDataType :=
  match r with
  | .ok s => (getMultiArray (fdAt s.output i).ftype).dataType
  | .error _ => .invalid

/-- Exemplar raw detector output: one box, five base columns and two
class columns (numClasses = 2). -/
def xEx : List (List ℚ) :=
  [[8, 12, 16, 20, 1 / 2, 1 / 4, 3 / 4]]

/-- Exemplar traced detector spec: one image input and two multi-array
outputs with distinct converter-generated names and no declared shape. -/
def specEx : ModelDescription :=
  { input := [{ name := "image", shortDescription := "",
                ftype := .imageType 640 640 }],
    output := [{ name := "var_939", shortDescription := "",
                 ftype := .multiArray { shape := [], dataType := .float32,
                                        sizeRanges := [] } },
               { name := "var_940", shortDescription := "",
                 ftype := .multiArray { shape := [], dataType := .float32,
                                        sizeRanges := [] } }] }

/-- Exemplar traced spec whose first output already declares a fixed
shape `[7]`. -/
def specShape7 : ModelDescription :=
  { input := [{ name := "image", shortDescription := "",
                ftype := .imageType 640 640 }],
    output := [{ name := "var_939", shortDescription := "",
                 ftype := .multiArray { shape := [7], dataType := .float32,
                                        sizeRanges := [] } },
               { name := "var_940", shortDescription := "",
                 ftype := .multiArray { shape := [], dataType := .float32,
                                        sizeRanges := [] } }] }

/-- Exemplar traced spec with three outputs. -/
def spec3out : ModelDescription :=
  { input := [{ name := "image", shortDescription := "",
                ftype := .imageType 640 640 }],
    output := [{ name := "var_939", shortDescription := "",
                 ftype := .multiArray { shape := [], dataType := .float32,
                                        sizeRanges := [] } },
               { name := "var_940", shortDescription := "",
                 ftype := .multiArray { shape := [], dataType := .float32,
                                        sizeRanges := [] } },
               { name := "var_941", shortDescription := "",
                 ftype := .multiArray { shape := [], dataType := .float32,
                                        sizeRanges := [] } }] }

/-- Environment in which every external operation succeeds. -/
def envGood : Env :=
  { traceOk := true, convertOk := true, tracedSpec := specEx, saveOk := true }

/-- Environment in which only `torch.jit.trace` fails; every operation in
the scope of the CoreML block succeeds. -/
def envTraceFail : Env :=
  { traceOk := false, convertOk := true, tracedSpec := specEx, saveOk := true }

/-- Fallback NMS model used by the exemplar extractors below. -/
def nmsJunk : NMSModel :=
  { description := { input := [], output := [] },
    confidenceInputFeatureName := "",
    coordinatesInputFeatureName := "",
    confidenceOutputFeatureName := "",
    coordinatesOutputFeatureName := "",
    iouThresholdInputFeatureName := "",
    confidenceThresholdInputFeatureName := "",
    iouThreshold := 0,
    confidenceThreshold := 0,
    pickTop := { perClass := false },
    stringClassLabels := [],
    specificationVersion := 0 }

/-- The exemplar spec after the interface-rename step. -/
def renamedEx : ModelDescription :=
  match interfaceRename 3 2 specEx with
  | .ok s => s
  | .error _ => { input := [], output := [] }

/-- The suppression stage built from the renamed exemplar spec. -/
def nmsEx : NMSModel :=
  match buildNMS renamedEx 2 ["a", "b"] with
  | .ok n => n
  | .error _ => nmsJunk

/-- The pipeline composed from the renamed exemplar spec and its
suppression stage. -/
def pipeEx : PipelineModel :=
  match composePipeline renamedEx nmsEx ["a", "b"] with
  | .ok p => p
  | .error _ => pipelineInit [] []

end CoremlExport

deriving instance DecidableEq for Except

namespace CoremlExport

/-! ## Theorems -/

theorem decodeNats_encodeNats (ns : List Nat) (ts : List Tok) :
    decodeNats ns.length (encodeNats ns ++ ts) = some (ns, ts) := by
  induction ns with
  | nil => rfl
  | cons n ns ih => simp [encodeNats, decodeNats, ih]

theorem decodeSRs_encodeSRs (rs : List SizeRange) (ts : List Tok) :
    decodeSRs rs.length (encodeSRs rs ++ ts) = some (rs, ts) := by
  induction rs with
  | nil => rfl
  | cons r rs ih => simp [encodeSRs, decodeSRs, ih]

theorem dtOfCode_dtCode (dt : ArrayDataType) : dtOfCode (dtCode dt) = some dt := by
  cases dt <;> rfl

theorem decodeMA_encodeMA (ma : MultiArrayType) (ts : List Tok) :
    decodeMA (encodeMA ma ++ ts) = some (ma, ts) := by
  simp [encodeMA, decodeMA, List.append_assoc, decodeNats_encodeNats,
    dtOfCode_dtCode, decodeSRs_encodeSRs]

theorem decodeFT_encodeFT (t : FeatureType) (ts : List Tok) :
    decodeFT (encodeFT t ++ ts) = some (t, ts) := by
  cases t with
  | multiArray ma => simp [encodeFT, decodeFT, decodeMA_encodeMA]
  | _ => rfl

/-- Serialize followed by parse returns the message unchanged: the copy
made by the source is byte-identical. -/
theorem parseCopy_eq (fd : FeatureDescription) : parseCopy fd = .ok fd := by
  have h := decodeFT_encodeFT fd.ftype []
  rw [List.append_nil] at h
  simp [parseCopy, decodeFD, encodeFD, h]

/-- Reading the head of a repeated feature field. -/
theorem fdAt_cons_zero (a : FeatureDescription) (l : List FeatureDescription) :
    fdAt (a :: l) 0 = a := rfl

/-- Reading a later element of a repeated feature field. -/
theorem fdAt_cons_succ (a : FeatureDescription) (l : List FeatureDescription)
    (n : Nat) : fdAt (a :: l) (n + 1) = fdAt l n := rfl

/-- Effect of the shape-range loop body on an output whose copied
multi-array declares no size ranges yet: the resulting feature keeps its
name, loses its fixed shape, and declares exactly the ranges
`[0, unbounded]` and `[size, size]`. -/
theorem addSizeRanges_spec (size : Nat) (fd : FeatureDescription)
    (h : (getMultiArray fd.ftype).sizeRanges = []) :
    addSizeRanges size fd =
      FeatureDescription.mk fd.name fd.shortDescription
        (FeatureType.multiArray
          (MultiArrayType.mk [] (getMultiArray fd.ftype).dataType
            [SizeRange.mk 0 (-1), SizeRange.mk (size : Int) (size : Int)])) := by
  simp only [addSizeRanges, mapMA, h]
  simp [modifyIdx]

/-- Binding a serialize/parse copy in the error monad just passes the
original message on. -/
theorem bind_parseCopy (fd : FeatureDescription)
    (f : FeatureDescription → Except ExportError α) :
    parseCopy fd >>= f = f fd := by
  rw [parseCopy_eq]; rfl

/-- C10: both artifact filenames are derived by replacing every
occurrence of the substring ".pt" anywhere in the weights path — with
".torchscript.pt" for the detector artifact and ".mlmodel" for the
pipeline artifact — so on a path with an interior ".pt", or one not
ending in ".pt", the result differs from replacing only the trailing
extension. -/
theorem c10_filename_replace_all :
    (∀ w, torchscriptFilename w = pyReplace w ".pt" ".torchscript.pt")
  ∧ (∀ w, mlmodelFilename w = pyReplace w ".pt" ".mlmodel")
  ∧ torchscriptFilename "dir.pt/yolov5s.pt"
      = "dir.torchscript.pt/yolov5s.torchscript.pt"
  ∧ extensionReplace "dir.pt/yolov5s.pt" ".torchscript.pt"
      = "dir.pt/yolov5s.torchscript.pt"
  ∧ torchscriptFilename "dir.pt/yolov5s.pt"
      ≠ extensionReplace "dir.pt/yolov5s.pt" ".torchscript.pt"
  ∧ mlmodelFilename "best.ptx" = "best.mlmodelx"
  ∧ mlmodelFilename "best.ptx" ≠ extensionReplace "best.ptx" ".mlmodel"
  ∧ mlmodelFilename "model.onnx" = "model.onnx"
  ∧ mlmodelFilename "model.onnx" ≠ extensionReplace "model.onnx" ".mlmodel" :=
  ⟨fun _ => rfl, fun _ => rfl, by decide, by decide, by decide, by decide,
   by decide, by decide, by decide⟩

/-- C8, counterexample: on a sub-graph exposing three outputs the
interface-rename block succeeds, refuting the claim that it fails
whenever the sub-graph does not expose exactly two outputs. -/
theorem c8_counterexample :
    spec3out.output.length = 3
  ∧ isOkB (interfaceRename 1 1 spec3out) = true := by decide

/-- C8, amended: the interface-rename block fails, with MissingOutput,
exactly when the sub-graph exposes fewer than two outputs; with two or
more outputs it succeeds, renaming and rewriting the first two. -/
theorem c8_amended (numBoxes numClasses : Nat) (spec : ModelDescription) :
    (isOkB (interfaceRename numBoxes numClasses spec) = true
      ↔ 2 ≤ spec.output.length)
  ∧ (interfaceRename numBoxes numClasses spec = .error .missingOutput
      ↔ spec.output.length < 2) := by
  unfold interfaceRename
  by_cases h : 2 ≤ spec.output.length
  · constructor
    · simp [h, isOkB]
    · simp [h]
  · constructor
    · simp [h, isOkB]
    · simp [h]
      omega

/-- C8, witness instantiating the amended theorem at a concrete input. -/
theorem c8_amended_witness :
    (isOkB (interfaceRename 5 7 spec3out) = true ↔ 2 ≤ spec3out.output.length)
  ∧ (interfaceRename 5 7 spec3out = .error .missingOutput
      ↔ spec3out.output.length < 2) :=
  c8_amended 5 7 spec3out

/-- C7, counterexample: with every CoreML-scope operation set to succeed
(same environment as `envGood` except for the trace), a failure of the
TorchScript trace alone makes the CoreML attempt fail too, refuting the
claim that a failure in either attempt cannot prevent the other attempt
from succeeding in both directions. -/
theorem c7_counterexample :
    envTraceFail.convertOk = true
  ∧ envTraceFail.saveOk = true
  ∧ envTraceFail.tracedSpec = envGood.tracedSpec
  ∧ (runExport "yolov5s.pt" envGood 3 2 ["a", "b"]).coremlError = false
  ∧ (runExport "yolov5s.pt" envTraceFail 3 2 ["a", "b"]).torchscriptError = true
  ∧ (runExport "yolov5s.pt" envTraceFail 3 2 ["a", "b"]).coremlError = true := by
  decide

/-- C7, amended: each attempt catches every error in its own scope, so
the run always completes; the TorchScript attempt's outcome depends only
on the trace and is unaffected by any CoreML failure; but a TorchScript
trace failure also makes the CoreML attempt fail, because the CoreML
block consumes the traced module. -/
theorem c7_amended (weights : String) (env : Env) (numBoxes numClasses : Nat)
    (labels : List String) :
    (runExport weights env numBoxes numClasses labels).completed = true
  ∧ (runExport weights env numBoxes numClasses labels).torchscriptError
      = !env.traceOk
  ∧ (env.traceOk = false →
      (runExport weights env numBoxes numClasses labels).coremlError = true) := by
  cases hco : coremlAttempt weights env numBoxes numClasses labels with
  | ok files =>
    refine ⟨by simp [runExport, hco], by simp [runExport, hco], ?_⟩
    intro ht
    rw [coremlAttempt, ht] at hco
    simp at hco
  | error e =>
    exact ⟨by simp [runExport, hco], by simp [runExport, hco],
      fun _ => by simp [runExport, hco]⟩

/-- C7, witness for the amended theorem at a concrete input. -/
theorem c7_amended_witness :
    (runExport "w.pt" envTraceFail 1 1 []).coremlError = true :=
  (c7_amended "w.pt" envTraceFail 1 1 []).2.2 rfl

/-- C2: even in a run in which every operation succeeds, the export
writes only the pipeline artifact; the TorchScript filename is derived
but no ".torchscript.pt" file is ever written, because the TorchScript
block of the source traces the model without saving it. -/
theorem c2_no_torchscript_artifact :
    (runExport "yolov5s.pt" envGood 3 2 ["a", "b"]).torchscriptError = false
  ∧ (runExport "yolov5s.pt" envGood 3 2 ["a", "b"]).coremlError = false
  ∧ torchscriptFilename "yolov5s.pt" = "yolov5s.torchscript.pt"
  ∧ (runExport "yolov5s.pt" envGood 3 2 ["a", "b"]).filesWritten
      = ["yolov5s.mlmodel"]
  ∧ "yolov5s.torchscript.pt"
      ∉ (runExport "yolov5s.pt" envGood 3 2 ["a", "b"]).filesWritten := by
  decide

/-- C9: the suppression-stage builder always sets the literal defaults
iouThreshold 0.45 and confidenceThreshold 0.6 and enables per-class top
pick. -/
theorem c9_default_thresholds (spec : ModelDescription) (numClasses : Nat)
    (labels : List String) (nms : NMSModel)
    (hb : buildNMS spec numClasses labels = .ok nms) :
    nms.iouThreshold = 0.45 ∧ nms.confidenceThreshold = 0.6
  ∧ nms.pickTop.perClass = true := by
  unfold buildNMS at hb
  split at hb
  · simp only [bind_parseCopy] at hb
    injection hb with h
    subst h
    exact ⟨rfl, rfl, rfl⟩
  · exact absurd hb (by simp)

/-- C9, witness at a concrete input. -/
theorem c9_default_thresholds_witness :
    nmsEx.iouThreshold = 0.45 ∧ nmsEx.confidenceThreshold = 0.6
  ∧ nmsEx.pickTop.perClass = true :=
  c9_default_thresholds renamedEx 2 ["a", "b"] nmsEx rfl

/-- C6: every suppression stage built from a sub-graph whose outputs
declare no size ranges of their own has outputs named confidence and
coordinates, with the fixed shape removed and the shape declared as a
range: first dimension lower bound 0 with unbounded upper bound (encoded
-1), second dimension fixed to numClasses for confidence and to 4 for
coordinates. -/
theorem c6_nms_output_specs (spec : ModelDescription) (numClasses : Nat)
    (labels : List String) (nms : NMSModel)
    (hb : buildNMS spec numClasses labels = .ok nms)
    (h0 : (getMultiArray (fdAt spec.output 0).ftype).sizeRanges = [])
    (h1 : (getMultiArray (fdAt spec.output 1).ftype).sizeRanges = []) :
    nms.description.output.map FeatureDescription.name
      = ["confidence", "coordinates"]
  ∧ (getMultiArray (fdAt nms.description.output 0).ftype).shape = []
  ∧ (getMultiArray (fdAt nms.description.output 1).ftype).shape = []
  ∧ (getMultiArray (fdAt nms.description.output 0).ftype).sizeRanges
      = [{ lowerBound := 0, upperBound := -1 },
         { lowerBound := (numClasses : Int), upperBound := (numClasses : Int) }]
  ∧ (getMultiArray (fdAt nms.description.output 1).ftype).sizeRanges
      = [{ lowerBound := 0, upperBound := -1 },
         { lowerBound := 4, upperBound := 4 }] := by
  unfold buildNMS at hb
  split at hb
  · simp only [bind_parseCopy] at hb
    injection hb with h
    subst h
    have e0 := addSizeRanges_spec numClasses
      (FeatureDescription.mk "confidence"
        (fdAt spec.output 0).shortDescription (fdAt spec.output 0).ftype) h0
    have e1 := addSizeRanges_spec 4
      (FeatureDescription.mk "coordinates"
        (fdAt spec.output 1).shortDescription (fdAt spec.output 1).ftype) h1
    refine ⟨?_, ?_, ?_, ?_, ?_⟩ <;>
      simp [e0, e1, fdAt_cons_zero, fdAt_cons_succ, getMultiArray]
  · exact absurd hb (by simp)

/-- C6, witness at a concrete input. -/
theorem c6_nms_output_specs_witness :
    nmsEx.description.output.map FeatureDescription.name
      = ["confidence", "coordinates"]
  ∧ (getMultiArray (fdAt nmsEx.description.output 0).ftype).shape = []
  ∧ (getMultiArray (fdAt nmsEx.description.output 1).ftype).shape = []
  ∧ (getMultiArray (fdAt nmsEx.description.output 0).ftype).sizeRanges
      = [{ lowerBound := 0, upperBound := -1 },
         { lowerBound := ((2 : Nat) : Int), upperBound := ((2 : Nat) : Int) }]
  ∧ (getMultiArray (fdAt nmsEx.description.output 1).ftype).sizeRanges
      = [{ lowerBound := 0, upperBound := -1 },
         { lowerBound := 4, upperBound := 4 }] :=
  c6_nms_output_specs renamedEx 2 ["a", "b"] nmsEx rfl (by decide) (by decide)

/-- C5: a supplied (nonempty) label list of length numClasses passes the
assertion and is stored verbatim in the suppression stage; a supplied
list of any other length fails with LabelCountMismatch; with no labels
supplied, labels Class 1 .. Class N are generated. -/
theorem c5_class_labels (labels : List String) (numClasses : Nat)
    (spec : ModelDescription) (nms : NMSModel) :
    (labels ≠ [] → labels.length = numClasses →
      resolveLabels labels numClasses = .ok labels
      ∧ (buildNMS spec numClasses labels = .ok nms →
          nms.stringClassLabels = labels))
  ∧ (labels ≠ [] → labels.length ≠ numClasses →
      resolveLabels labels numClasses = .error .labelCountMismatch)
  ∧ (∀ gl, resolveLabels [] numClasses = .ok gl →
      gl.length = numClasses
      ∧ ∀ i, i < numClasses → gl.getD i "" = "Class " ++ toString (i + 1)) := by
  refine ⟨?_, ?_, ?_⟩
  · intro hne hlen
    refine ⟨by simp [resolveLabels, hne, hlen], ?_⟩
    intro hb
    unfold buildNMS at hb
    split at hb
    · simp only [bind_parseCopy] at hb
      injection hb with h
      subst h
      rfl
    · exact absurd hb (by simp)
  · intro hne hlen
    simp [resolveLabels, hne, hlen]
  · intro gl hgl
    unfold resolveLabels at hgl
    simp at hgl
    subst hgl
    constructor
    · simp
    · intro i hi
      rw [List.getD_eq_getElem _ _ (by simpa using hi)]
      simp

/-- C5, witness at concrete inputs for all three branches. -/
theorem c5_class_labels_witness :
    resolveLabels ["a", "b"] 2 = .ok ["a", "b"]
  ∧ nmsEx.stringClassLabels = ["a", "b"]
  ∧ resolveLabels ["a", "b"] 3 = .error .labelCountMismatch
  ∧ resolveLabels [] 3 = .ok ["Class 1", "Class 2", "Class 3"] := by
  have h1 := (c5_class_labels ["a", "b"] 2 renamedEx nmsEx).1
    (by decide) (by decide)
  have h2 := (c5_class_labels ["a", "b"] 3 renamedEx nmsEx).2.1
    (by decide) (by decide)
  exact ⟨h1.1, h1.2 rfl, h2, by rfl⟩

/-- C1, counterexample: on a two-output sub-graph whose first output
already declares the fixed shape [7], the rename block yields declared
shape [7, 3, 2] rather than [3, 2]: the shape write appends (protobuf
extend), it does not replace. -/
theorem c1_shape_extend_counterexample :
    specShape7.output.length = 2
  ∧ renamedShape (interfaceRename 3 2 specShape7) 0 = [7, 3, 2]
  ∧ renamedShape (interfaceRename 3 2 specShape7) 0 ≠ [3, 2] := by decide

/-- C1, amended: for a two-output sub-graph (with distinct output names
not clashing with the target names), the renamer renames output0 to
raw_confidence and output1 to raw_coordinates, appends [numBoxes,
numClasses] and [numBoxes, 4] to the declared shapes (so the declared
shape equals exactly those lists only when it was previously empty), and
forces both element types to double regardless of the native
precision. -/
theorem c1_interface_rename_amended (numBoxes numClasses : Nat)
    (spec : ModelDescription) (h2 : spec.output.length = 2)
    (hdist : (fdAt spec.output 0).name ≠ (fdAt spec.output 1).name)
    (hnc : (fdAt spec.output 1).name ≠ "raw_confidence") :
    isOkB (interfaceRename numBoxes numClasses spec) = true
  ∧ renamedNames (interfaceRename numBoxes numClasses spec)
      = ["raw_confidence", "raw_coordinates"]
  ∧ renamedShape (interfaceRename numBoxes numClasses spec) 0
      = (getMultiArray (fdAt spec.output 0).ftype).shape
        ++ [numBoxes, numClasses]
  ∧ renamedShape (interfaceRename numBoxes numClasses spec) 1
      = (getMultiArray (fdAt spec.output 1).ftype).shape ++ [numBoxes, 4]
  ∧ renamedDataType (interfaceRename numBoxes numClasses spec) 0 = .double
  ∧ renamedDataType (interfaceRename numBoxes numClasses spec) 1 = .double := by
  obtain ⟨si, so⟩ := spec
  simp only at h2 hdist hnc ⊢
  obtain ⟨a, b, rfl⟩ := List.length_eq_two.mp h2
  simp only [fdAt_cons_zero, fdAt_cons_succ] at hdist hnc ⊢
  refine ⟨?_, ?_, ?_, ?_, ?_, ?_⟩ <;>
    simp [interfaceRename, renameFeature, modifyIdx, mapMA, isOkB,
      renamedNames, renamedShape, renamedDataType, fdAt_cons_zero,
      fdAt_cons_succ, Ne.symm hdist, Ne.symm hnc, getMultiArray]

/-- C1, witness for the amended theorem at a concrete input. -/
theorem c1_interface_rename_witness :
    isOkB (interfaceRename 3 2 specEx) = true
  ∧ renamedNames (interfaceRename 3 2 specEx)
      = ["raw_confidence", "raw_coordinates"]
  ∧ renamedShape (interfaceRename 3 2 specEx) 0
      = (getMultiArray (fdAt specEx.output 0).ftype).shape ++ [3, 2]
  ∧ renamedShape (interfaceRename 3 2 specEx) 1
      = (getMultiArray (fdAt specEx.output 1).ftype).shape ++ [3, 4]
  ∧ renamedDataType (interfaceRename 3 2 specEx) 0 = .double
  ∧ renamedDataType (interfaceRename 3 2 specEx) 1 = .double :=
  c1_interface_rename_amended 3 2 specEx (by decide) (by decide) (by decide)

/-- C3: the composed pipeline declares as outputs exact copies (name,
type, shape) of the suppression stage outputs, made through the
serialize/re-parse copy, so the declared pipeline output names are
confidence and coordinates whatever default outputs the Pipeline
constructor auto-generated. -/
theorem c3_pipeline_outputs_copied (spec : ModelDescription)
    (numClasses : Nat) (labels : List String) (nms : NMSModel)
    (p : PipelineModel)
    (hb : buildNMS spec numClasses labels = .ok nms)
    (hp : composePipeline spec nms labels = .ok p) :
    p.output.map (fun o => (o.name, o.ftype))
      = nms.description.output.map (fun o => (o.name, o.ftype))
  ∧ p.output.map FeatureDescription.name = ["confidence", "coordinates"] := by
  unfold buildNMS at hb
  split at hb
  · simp only [bind_parseCopy] at hb
    injection hb with h
    subst h
    unfold composePipeline at hp
    split at hp
    · split at hp
      · simp only [bind_parseCopy] at hp
        injection hp with h
        subst h
        constructor <;>
          simp [pipelineInit, modifyIdx, fdAt_cons_zero, fdAt_cons_succ,
            addSizeRanges, mapMA]
      · exact absurd hp (by simp)
    · exact absurd hp (by simp)
  · exact absurd hb (by simp)

/-- C3, witness at a concrete input. -/
theorem c3_pipeline_outputs_witness :
    pipeEx.output.map (fun o => (o.name, o.ftype))
      = nmsEx.description.output.map (fun o => (o.name, o.ftype))
  ∧ pipeEx.output.map FeatureDescription.name
      = ["confidence", "coordinates"] :=
  c3_pipeline_outputs_copied renamedEx 2 ["a", "b"] nmsEx pipeEx rfl rfl

/-- C4: on a raw tensor of layout [numBoxes, 5 + numClasses] the forward
wrapper multiplies each class column by the objectness column, and
divides box coordinate k by scaleFactor[k] with scaleFactor =
[w, h, w, h] (the code multiplies by the reciprocals, which is the same
rational function). -/
theorem c4_coordinate_normalizer (w h : ℚ) (x : List (List ℚ))
    (C b c k : Nat) (hx : ∀ row ∈ x, row.length = 5 + C)
    (hb : b < x.length) (hc : c < C) (hk : k < 4) :
    ((exportForward w h x).1.getD b []).getD c 0
        = (x.getD b []).getD (5 + c) 0 * (x.getD b []).getD 4 0
  ∧ ((exportForward w h x).2.getD b []).getD k 0
        = (x.getD b []).getD k 0 / ([w, h, w, h].getD k 0) := by
  have hxb : x.getD b [] = x[b] := List.getD_eq_getElem x [] hb
  have hrow : x[b].length = 5 + C := hx x[b] (List.getElem_mem hb)
  constructor
  · have h1 : ((exportForward w h x).1.getD b [])
        = (x[b].drop 5).map (fun v => v * x[b].getD 4 0) := by
      rw [exportForward]
      rw [List.getD_eq_getElem _ _ (by simpa using hb)]
      simp
    have hcmap : c < ((x[b].drop 5).map
        (fun v => v * x[b].getD 4 0)).length := by
      simp [hrow]; omega
    have e5c : (x.getD b []).getD (5 + c) 0 = x[b][5 + c] := by
      rw [hxb]; exact List.getD_eq_getElem _ _ (by omega)
    rw [h1, e5c, hxb]
    rw [List.getD_eq_getElem _ _ hcmap, List.getElem_map]
    simp only [List.getElem_drop]
  · have h2 : ((exportForward w h x).2.getD b [])
        = List.zipWith (fun v s => v * s) (x[b].take 4)
            [1 / w, 1 / h, 1 / w, 1 / h] := by
      rw [exportForward]
      rw [List.getD_eq_getElem _ _ (by simpa using hb)]
      simp
    have hzipl : (List.zipWith (fun v s => v * s) (x[b].take 4)
        [1 / w, 1 / h, 1 / w, 1 / h]).length = 4 := by
      simp [hrow]; omega
    have ek : (x.getD b []).getD k 0 = x[b][k] := by
      rw [hxb]; exact List.getD_eq_getElem _ _ (by omega)
    rw [h2, ek]
    rw [List.getD_eq_getElem _ _ (by omega)]
    rw [List.getElem_zipWith]
    rw [List.getElem_take]
    interval_cases k <;> simp [div_eq_mul_inv, List.getD]

/-- C4, witness at a concrete input (one box, two classes, image size
2 by 4). -/
theorem c4_coordinate_normalizer_witness :
    ((exportForward 2 4 xEx).1.getD 0 []).getD 1 0
        = (xEx.getD 0 []).getD (5 + 1) 0 * (xEx.getD 0 []).getD 4 0
  ∧ ((exportForward 2 4 xEx).2.getD 0 []).getD 2 0
        = (xEx.getD 0 []).getD 2 0 / ([2, 4, 2, 4].getD 2 0) :=
  c4_coordinate_normalizer 2 4 xEx 2 0 1 2 (by decide) (by decide)
    (by decide) (by decide)

end CoremlExport
